import Mathlib

/-!
Verification of the ts-micro-mediator dispatch/registry core.

Shallow embedding of the library's source:
- `Registry` (src/registry.ts): four string-keyed maps, modelled as
  association lists whose operations mirror JS `Map.get`/`Map.set`
  (set replaces in place, preserving insertion order; `Map.size` is the
  number of keys, i.e. the list length under the key-uniqueness invariant
  that `mapSet` maintains).
- `Mediator` (src/mediator.ts): `send`, `publish`, `sendBatch` over a
  Registry.  Handler invocation is modelled by its observable outcome:
  a request handler either resolves to a JS value or throws/rejects
  (carrying an opaque cause string); a notification handler either
  resolves or rejects.  `send` returns either one of the dispatcher's
  own failure Results (`SendResult.errResult`) or the handler's value
  unchanged (`SendResult.passThrough`) — `send` itself has no throwing
  path, matching the source where every control path returns.
- `MEDIATOR_ERRORS` (src/mediator-errors.ts): the three standard error
  descriptors built through ts-micro-result's `defineErrorAdvanced`.
- `isResult` (src/result-utils.ts, re-exported by the lite build): the
  duck-check for the Result contract.  JS values are modelled with
  exactly the features `send` and `isResult` observe: nullish values,
  non-object primitives, and objects with an optional `ok` property,
  the three predicate methods, an own `data` property, and an `errors`
  field that is either an array of entries or not an array.
- The module-level singleton state of src/mediator.ts (factory),
  src/helpers.ts and src/middleware.ts, modelled as a `World` holding a
  heap of registries (a Mediator is a stateless wrapper identified by
  the registry it references) plus the three module-level caches.
-/

/-- Structured error descriptor of the Result contract: a machine-readable
`code`, a human-readable `message`, and an optional HTTP-style `status`. -/
structure ErrorDetail where
  code : String
  message : String
  status : Option Nat
  deriving DecidableEq

/-- An element of a candidate Result's `errors` array: either an object with
string `code` and string `message` fields (an `ErrorDetail`), or anything
else. -/
inductive ErrEntry
  | detail (code message : String)
  | notDetail
  deriving DecidableEq

/-- The features of a JS object observed by `Mediator.send` and `isResult`:
the `ok` property (`none` = undefined/absent), whether `isOk`/`isError`/
`hasWarning` are functions, whether `data` is an own property, and the
`errors` field (`none` = not an array). -/
structure JsObject where
  okField : Option Bool
  isOkFn : Bool
  isErrorFn : Bool
  hasWarningFn : Bool
  hasDataOwn : Bool
  errorsArr : Option (List ErrEntry)
  deriving DecidableEq

/-- A JS runtime value as observed by the dispatcher: `null`/`undefined`,
a non-null non-object primitive, or an object. -/
inductive JsValue
  | nullish
  | primVal
  | obj (o : JsObject)
  deriving DecidableEq

/-- Guard `isErrorDetail` from src/result-utils.ts: a non-null object whose `code`
and `message` are strings. -/
def isErrorDetail : ErrEntry → Bool
  | .detail _ _ => true
  | .notDetail => false

/-- Guard `isResult` from src/result-utils.ts: a non-null object where `isOk`,
`isError` and `hasWarning` are functions, `data` is an own property, and
`errors` is an array whose every element satisfies `isErrorDetail`. -/
def isResult : JsValue → Bool
  | .obj o =>
      (o.isOkFn && o.isErrorFn && o.hasWarningFn) &&
        (o.hasDataOwn &&
          (match o.errorsArr with
           | some es => es.all isErrorDetail
           | none => false))
  | _ => false

/-- The test `result?.ok !== undefined` used by `Mediator.send`: true iff the
value is an object carrying a defined `ok` property (optional chaining makes
the test false on nullish values, and primitives have no `ok`). -/
def okIsDefined : JsValue → Bool
  | .obj o => o.okField.isSome
  | _ => false

/-- A request instance, identified by its runtime constructor name
(`request.constructor.name`), which is all the dispatcher reads from it. -/
structure IRequest where
  ctorName : String

/-- A notification instance, identified by its runtime constructor name. -/
structure INotification where
  ctorName : String

/-- Observable outcome of awaiting a request handler: it resolves to some JS
value, or it throws synchronously / rejects (with an opaque cause). -/
inductive HandlerOutcome
  | resolves (v : JsValue)
  | throws (cause : String)

/-- A request handler, by its observable outcome on each request. -/
def RequestHandler := IRequest → HandlerOutcome

/-- Observable outcome of awaiting a notification handler. -/
inductive NotifOutcome
  | resolves
  | rejects (cause : String)

/-- A notification handler, by its observable outcome on each notification. -/
def NotificationHandler := INotification → NotifOutcome

/-- A registered class constructor; the registry keys it by `ctor.name`. -/
structure ClassCtor where
  name : String
  deriving DecidableEq

/-- Semantics of JS `Map.get`: the value stored at `k`, if any. -/
def mapGet {α : Type} (m : List (String × α)) (k : String) : Option α :=
  match m with
  | [] => none
  | (k', v) :: rest => if k' = k then some v else mapGet rest k

/-- Semantics of JS `Map.set`: replaces the entry for `k` in place (preserving insertion
order) or appends a fresh entry. -/
def mapSet {α : Type} (m : List (String × α)) (k : String) (v : α) :
    List (String × α) :=
  match m with
  | [] => [(k, v)]
  | (k', v') :: rest =>
      if k' = k then (k, v) :: rest else (k', v') :: mapSet rest k v

/-- Registry stats, src/types.ts `RegistryStats`. -/
structure RegistryStats where
  requestHandlers : Nat
  notificationHandlers : Nat
  requestClasses : Nat
  notificationClasses : Nat
  deriving DecidableEq

/-- The Registry, src/registry.ts: four maps keyed by type-key. -/
structure Registry where
  requestHandlers : List (String × RequestHandler)
  notificationHandlers : List (String × List NotificationHandler)
  requestClasses : List (String × ClassCtor)
  notificationClasses : List (String × ClassCtor)

/-- A freshly constructed Registry: all four maps empty. -/
def Registry.empty : Registry := ⟨[], [], [], []⟩

/-- Method `Registry.registerHandler`: stores/overwrites the request handler. -/
def Registry.registerHandler (reg : Registry) (requestType : String)
    (handler : RequestHandler) : Registry :=
  { reg with requestHandlers := mapSet reg.requestHandlers requestType handler }

/-- Method `Registry.registerNotificationHandler`: appends to the key's list
(`handlers.push`), creating the list if absent. -/
def Registry.registerNotificationHandler (reg : Registry)
    (notificationType : String) (handler : NotificationHandler) : Registry :=
  match mapGet reg.notificationHandlers notificationType with
  | some handlers =>
      let m := mapSet reg.notificationHandlers notificationType (handlers ++ [handler])
      { reg with notificationHandlers := m }
  | none =>
      let m := mapSet reg.notificationHandlers notificationType [handler]
      { reg with notificationHandlers := m }

/-- Method `Registry.registerRequestClass`: stores the constructor keyed by its name. -/
def Registry.registerRequestClass (reg : Registry) (c : ClassCtor) : Registry :=
  { reg with requestClasses := mapSet reg.requestClasses c.name c }

/-- Method `Registry.registerNotificationClass`. -/
def Registry.registerNotificationClass (reg : Registry) (c : ClassCtor) :
    Registry :=
  { reg with notificationClasses := mapSet reg.notificationClasses c.name c }

/-- Method `Registry.getHandler`: the registered handler or absence. -/
def Registry.getHandler (reg : Registry) (requestType : String) :
    Option RequestHandler :=
  mapGet reg.requestHandlers requestType

/-- Method `Registry.getNotificationHandlers`: the key's list, or `[]` (`|| []`). -/
def Registry.getNotificationHandlers (reg : Registry)
    (notificationType : String) : List NotificationHandler :=
  (mapGet reg.notificationHandlers notificationType).getD []

/-- Method `Registry.reset`: clears all four maps. -/
def Registry.reset (reg : Registry) : Registry :=
  { reg with requestHandlers := [], notificationHandlers := [],
             requestClasses := [], notificationClasses := [] }

/-- Method `Registry.getStats`: the `size` of each map (number of keys). -/
def Registry.getStats (reg : Registry) : RegistryStats :=
  { requestHandlers := reg.requestHandlers.length,
    notificationHandlers := reg.notificationHandlers.length,
    requestClasses := reg.requestClasses.length,
    notificationClasses := reg.notificationClasses.length }

/-- Representation invariant of the notification-handler map as a JS `Map`
of non-empty lists: keys are distinct (automatic for a JS `Map`), and every
stored list is non-empty (lists are created as `[handler]` and only ever
appended to). -/
def Registry.notifKeysOk (reg : Registry) : Prop :=
  (reg.notificationHandlers.map Prod.fst).Nodup ∧
    ∀ p ∈ reg.notificationHandlers, p.2 ≠ []

/-- External ts-micro-result factory `defineErrorAdvanced(code, template,
status)`, modelled from its use site and the spec's error table: calling the
resulting factory with a request type substitutes the template's single
trailing placeholder with that request type and attaches the given status.
All three templates in src/mediator-errors.ts place the placeholder at the
end, so the template is represented by the text before it (`stem`). -/
def defineErrorAdvanced (code stem : String) (status : Nat) :
    String → ErrorDetail :=
  fun requestType =>
    { code := code, message := stem ++ requestType, status := some status }

/-- src/mediator-errors.ts: `HANDLER_NOT_FOUND`. -/
def MEDIATOR_ERRORS.HANDLER_NOT_FOUND : String → ErrorDetail :=
  defineErrorAdvanced "HANDLER_NOT_FOUND"
    "Handler not found for request type: " 404

/-- src/mediator-errors.ts: `HANDLER_ERROR`. -/
def MEDIATOR_ERRORS.HANDLER_ERROR : String → ErrorDetail :=
  defineErrorAdvanced "HANDLER_ERROR"
    "Handler execution failed for request type: " 500

/-- src/mediator-errors.ts: `INVALID_HANDLER_RESULT`. -/
def MEDIATOR_ERRORS.INVALID_HANDLER_RESULT : String → ErrorDetail :=
  defineErrorAdvanced "INVALID_HANDLER_RESULT"
    "Handler returned invalid result for request type: " 500

/-- What `Mediator.send` resolves to: one of the dispatcher's own failure
Results `err(detail)` (whose error list is exactly `[detail]`), or the
handler's resolved value returned unchanged. -/
inductive SendResult
  | errResult (e : ErrorDetail)
  | passThrough (v : JsValue)
  deriving DecidableEq

/-- Method `Mediator.getRequestType`: `request.constructor.name`. -/
def Mediator.getRequestType (request : IRequest) : String :=
  request.ctorName

/-- Method `Mediator.getNotificationType`: `notification.constructor.name`. -/
def Mediator.getNotificationType (notification : INotification) : String :=
  notification.ctorName

/-- Method `Mediator.send` (src/mediator.ts): look up the handler by the request's
runtime type-key; absent handler yields the `HANDLER_NOT_FOUND` failure; a
throwing/rejecting handler is caught and yields the `HANDLER_ERROR` failure;
a resolved value passes through exactly when `result?.ok !== undefined`,
otherwise the `INVALID_HANDLER_RESULT` failure is returned. -/
def Mediator.send (registry : Registry) (request : IRequest) : SendResult :=
  let requestType := Mediator.getRequestType request
  match registry.getHandler requestType with
  | none => .errResult (MEDIATOR_ERRORS.HANDLER_NOT_FOUND requestType)
  | some handler =>
      match handler request with
      | .throws _ => .errResult (MEDIATOR_ERRORS.HANDLER_ERROR requestType)
      | .resolves result =>
          if okIsDefined result then .passThrough result
          else .errResult (MEDIATOR_ERRORS.INVALID_HANDLER_RESULT requestType)

/-- Outcome of a promise as observed by a caller awaiting it. -/
inductive PromiseOutcome
  | resolved
  | rejected
  deriving DecidableEq

/-- Semantics of `Promise.all`: rejects iff some element rejects, resolves otherwise. -/
def promiseAll : List PromiseOutcome → PromiseOutcome
  | [] => .resolved
  | .rejected :: _ => .rejected
  | .resolved :: rest => promiseAll rest

/-- Expression `handler(notification).catch(() => \x7b\x7d)`: a resolved handler promise
stays resolved, a rejected one is caught and replaced by a resolved promise. -/
def catchDiscard : NotifOutcome → PromiseOutcome
  | .resolves => .resolved
  | .rejects _ => .resolved

/-- Trace of one `publish` call: the raw outcome of each registered handler
for the notification's type-key (each is invoked exactly once, in
registration order) and the outcome of the promise `publish` returns. -/
structure PublishTrace where
  invoked : List NotifOutcome
  outcome : PromiseOutcome

/-- Method `Mediator.publish` (src/mediator.ts): fetch the handlers for the
notification's runtime type-key; when non-empty, await `Promise.all` of the
handlers, each wrapped in `.catch(() => \x7b\x7d)`. -/
def Mediator.publish (registry : Registry) (notification : INotification) :
    PublishTrace :=
  let handlers :=
    registry.getNotificationHandlers (Mediator.getNotificationType notification)
  let raw := handlers.map fun handler => handler notification
  { invoked := raw,
    outcome :=
      if handlers.length > 0 then promiseAll (raw.map catchDiscard)
      else .resolved }

/-- Method `Mediator.sendBatch` (src/mediator.ts): `Promise.all(requests.map(send))`
— the i-th element of the resolved array is the settled value of the promise
produced from the i-th request, independent of completion timing. -/
def Mediator.sendBatch (registry : Registry) (requests : List IRequest) :
    List SendResult :=
  requests.map fun request => Mediator.send registry request

/-- Module-level singleton state across src/mediator.ts (factory),
src/helpers.ts and src/middleware.ts.  Registries live in a heap (index =
identity); a Mediator is a stateless wrapper around one registry, so a
cached mediator is identified by its registry's index. -/
structure World where
  registries : List Registry
  factoryRegistry : Option Nat
  helpersMediator : Option Nat
  middlewareMediator : Option Nat

/-- Fresh process state: no singleton created, all caches empty. -/
def World.empty : World := ⟨[], none, none, none⟩

/-- Method `MediatorFactory.create`: return the existing singleton, or construct a
fresh Registry and Mediator and store them as the singleton. -/
def MediatorFactory.create (w : World) : World × Nat :=
  match w.factoryRegistry with
  | some i => (w, i)
  | none =>
      let i := w.registries.length
      ({ w with registries := w.registries ++ [Registry.empty],
                factoryRegistry := some i }, i)

/-- Method `MediatorFactory.reset`: clear the singleton Registry's contents in place
(stale references observe the cleared registry) and discard the factory's
singleton references. -/
def MediatorFactory.reset (w : World) : World :=
  let registries :=
    match w.factoryRegistry with
    | some i => w.registries.set i ((w.registries.getD i Registry.empty).reset)
    | none => w.registries
  { w with registries := registries, factoryRegistry := none }

/-- src/helpers.ts `ensureMediator`: the module's own lazy cache over
`MediatorFactory.create`. -/
def Helpers.ensureMediator (w : World) : World × Nat :=
  match w.helpersMediator with
  | some i => (w, i)
  | none =>
      let p := MediatorFactory.create w
      ({ p.1 with helpersMediator := some p.2 }, p.2)

/-- src/middleware.ts `getMediator`: a separate module-level lazy cache over
`MediatorFactory.create`. -/
def Middleware.getMediator (w : World) : World × Nat :=
  match w.middlewareMediator with
  | some i => (w, i)
  | none =>
      let p := MediatorFactory.create w
      ({ p.1 with middlewareMediator := some p.2 }, p.2)

/-- src/helpers.ts `registerHandler`: obtain the cached mediator and register
the handler into its registry. -/
def Helpers.registerHandler (w : World) (requestType : String)
    (handler : RequestHandler) : World :=
  let p := Helpers.ensureMediator w
  let reg := (p.1.registries.getD p.2 Registry.empty).registerHandler requestType handler
  { p.1 with registries := p.1.registries.set p.2 reg }

/-- src/helpers.ts `resetRegistry`: `MediatorFactory.reset()` then clear the
helpers module's own cache (`_mediator = null`).  The middleware module's
cache is not touched. -/
def Helpers.resetRegistry (w : World) : World :=
  let w' := MediatorFactory.reset w
  { w' with helpersMediator := none }

/-- src/middleware.ts `sendRequest`: obtain the middleware module's cached
mediator and dispatch through it. -/
def Middleware.sendRequest (w : World) (request : IRequest) :
    World × SendResult :=
  let p := Middleware.getMediator w
  (p.1, Mediator.send (p.1.registries.getD p.2 Registry.empty) request)

/-- Fixture for the C1 counterexample: an object exposing a defined `ok`
property but none of the three predicate functions and no `data`/`errors`
shape — not a well-formed Result. -/
def vC1cex : JsValue :=
  .obj { okField := some true, isOkFn := false, isErrorFn := false,
         hasWarningFn := false, hasDataOwn := false, errorsArr := none }

/-- Fixture: a handler resolving to `vC1cex`. -/
def hC1cex : RequestHandler := fun _ => .resolves vC1cex

/-- Fixture: a registry with `hC1cex` registered for type-key `Foo`. -/
def regC1cex : Registry := Registry.empty.registerHandler "Foo" hC1cex

/-- Fixture for the C1 amended witness: a handler resolving to a nullish
value, registered for type-key `FooW`. -/
def hC1w : RequestHandler := fun _ => .resolves .nullish

/-- Fixture: registry for the C1 amended witness. -/
def regC1w : Registry := Registry.empty.registerHandler "FooW" hC1w

/-- Fixture for the C5 witness: a handler that rejects. -/
def hC5w : RequestHandler := fun _ => .throws "database exploded"

/-- Fixture: registry for the C5 witness. -/
def regC5w : Registry := Registry.empty.registerHandler "Boom" hC5w

/-- Fixture for the C6 counterexample: an object satisfying the full Result
predicate contract (three predicate functions, own `data` property, `errors`
array of error details) but with no defined `ok` property. -/
def vC6cex : JsValue :=
  .obj { okField := none, isOkFn := true, isErrorFn := true,
         hasWarningFn := true, hasDataOwn := true, errorsArr := some [] }

/-- Fixture: a handler resolving to `vC6cex`. -/
def hC6cex : RequestHandler := fun _ => .resolves vC6cex

/-- Fixture: registry with `hC6cex` registered for type-key `Bar`. -/
def regC6cex : Registry := Registry.empty.registerHandler "Bar" hC6cex

/-- Fixture for the C6 amended witness: a failure-shaped Result value with a
defined `ok` property (set to `false`). -/
def vC6w : JsValue :=
  .obj { okField := some false, isOkFn := true, isErrorFn := true,
         hasWarningFn := true, hasDataOwn := true,
         errorsArr := some [.detail "E_FAIL" "it failed"] }

/-- Fixture: a handler resolving to `vC6w`. -/
def hC6w : RequestHandler := fun _ => .resolves vC6w

/-- Fixture: registry with `hC6w` registered for type-key `Baz`. -/
def regC6w : Registry := Registry.empty.registerHandler "Baz" hC6w

/-- Fixture for the C3 trace: a well-formed success Result. -/
def vC3K : JsValue :=
  .obj { okField := some true, isOkFn := true, isErrorFn := true,
         hasWarningFn := true, hasDataOwn := true, errorsArr := some [] }

/-- Fixture: the handler registered for type-key `K` after the reset. -/
def hC3K : RequestHandler := fun _ => .resolves vC3K

/-- C3 trace, step 1: one `sendRequest` call in a fresh process populates the
middleware module's lazy cache (and creates singleton registry 0). -/
def wC3cached : World := (Middleware.sendRequest World.empty ⟨"Warmup"⟩).1

/-- C3 trace, step 2: `resetRegistry()` clears registry 0, the factory
singleton and the helpers cache — but not the middleware cache. -/
def wC3reset : World := Helpers.resetRegistry wC3cached

/-- C3 trace, step 3: registering a handler for `K` through the convenience
registration API builds a fresh singleton pair (registry 1) and registers
into it. -/
def wC3registered : World := Helpers.registerHandler wC3reset "K" hC3K

/-- Fixture for the C10 witness: a first notification handler. -/
def nhA : NotificationHandler := fun _ => .resolves

/-- Fixture for the C10 witness: a second notification handler. -/
def nhB : NotificationHandler := fun _ => .rejects "boom"

/-- Fixture: registry with `nhA` registered for notification type `Evt`. -/
def regC10w : Registry := Registry.empty.registerNotificationHandler "Evt" nhA

theorem mapGet_mapSet_self {α : Type} (m : List (String × α)) (k : String)
    (v : α) : mapGet (mapSet m k v) k = some v := by
  induction m with
  | nil => simp [mapGet, mapSet]
  | cons p rest ih =>
      obtain ⟨k', v'⟩ := p
      by_cases h : k' = k
      · simp [mapGet, mapSet, h]
      · simp [mapGet, mapSet, h, ih]

theorem length_mapSet_of_get {α : Type} (m : List (String × α)) (k : String)
    (v w : α) (hk : mapGet m k = some v) :
    (mapSet m k w).length = m.length := by
  induction m with
  | nil => simp [mapGet] at hk
  | cons p rest ih =>
      obtain ⟨k', v'⟩ := p
      by_cases h : k' = k
      · simp [mapSet, h]
      · simp only [mapGet, h, if_false] at hk
        simp [mapSet, h, ih hk]

theorem mapGet_mem {α : Type} (m : List (String × α)) (k : String) (v : α)
    (hk : mapGet m k = some v) : (k, v) ∈ m := by
  induction m with
  | nil => simp [mapGet] at hk
  | cons p rest ih =>
      obtain ⟨k', v'⟩ := p
      by_cases h : k' = k
      · simp only [mapGet, h, if_true] at hk
        obtain rfl := Option.some.inj hk
        subst h
        exact List.mem_cons_self _ _
      · simp only [mapGet, h, if_false] at hk
        exact List.mem_cons_of_mem _ (ih hk)

theorem mapGet_eq_some_of_mem_keys {α : Type} (m : List (String × α))
    (k : String) (hk : k ∈ m.map Prod.fst) : ∃ v, mapGet m k = some v := by
  induction m with
  | nil => simp at hk
  | cons p rest ih =>
      obtain ⟨k', v'⟩ := p
      by_cases h : k' = k
      · exact ⟨v', by simp [mapGet, h]⟩
      · have : k ∈ rest.map Prod.fst := by
          simp only [List.map_cons, List.mem_cons] at hk
          rcases hk with h1 | h1
          · exact absurd h1.symm h
          · exact h1
        obtain ⟨v, hv⟩ := ih this
        exact ⟨v, by simp [mapGet, h, hv]⟩

theorem mapGet_eq_none_of_not_mem_keys {α : Type} (m : List (String × α))
    (k : String) (hk : k ∉ m.map Prod.fst) : mapGet m k = none := by
  induction m with
  | nil => simp [mapGet]
  | cons p rest ih =>
      obtain ⟨k', v'⟩ := p
      have h1 : k' ≠ k := by
        intro h
        exact hk (by simp [h])
      have h2 : k ∉ rest.map Prod.fst := by
        intro h
        exact hk (by simp [h])
      simp [mapGet, h1, ih h2]

theorem promiseAll_catchDiscard (l : List NotifOutcome) :
    promiseAll (l.map catchDiscard) = .resolved := by
  induction l with
  | nil => rfl
  | cons o rest ih => cases o <;> simpa [catchDiscard, promiseAll] using ih

/-- Claim C1, counterexample: the claim states that whenever a handler
resolves to a value that does not expose the Result predicate contract
(three predicate functions plus the `data`/`errors` shape), `send` returns
an `INVALID_HANDLER_RESULT` failure.  The value `vC1cex` has a defined `ok`
property and nothing else, so it is not a well-formed Result
(`isResult vC1cex = false`), yet `send` passes it through unchanged instead
of returning the `INVALID_HANDLER_RESULT` failure. -/
theorem claim_C1_counterexample :
    isResult vC1cex = false ∧
    Mediator.send regC1cex ⟨"Foo"⟩ = .passThrough vC1cex ∧
    Mediator.send regC1cex ⟨"Foo"⟩ ≠
      .errResult (MEDIATOR_ERRORS.INVALID_HANDLER_RESULT "Foo") := by
  decide

/-- Claim C1, amended: for every request whose registered handler resolves
to a value that is nullish or carries no defined `ok` property, `send`
resolves to a failure Result with error code `INVALID_HANDLER_RESULT` whose
message names the request's type-key — the dispatcher's well-formedness
check is only this `ok`-presence duck-check, not the three-predicate /
`data`/`errors` contract. -/
theorem claim_C1_amended (reg : Registry) (r : IRequest)
    (handler : RequestHandler) (v : JsValue)
    (hreg : reg.getHandler (Mediator.getRequestType r) = some handler)
    (hres : handler r = .resolves v)
    (hnok : okIsDefined v = false) :
    Mediator.send reg r =
        .errResult (MEDIATOR_ERRORS.INVALID_HANDLER_RESULT (Mediator.getRequestType r)) ∧
    (MEDIATOR_ERRORS.INVALID_HANDLER_RESULT (Mediator.getRequestType r)).message =
      "Handler returned invalid result for request type: " ++ Mediator.getRequestType r := by
  refine ⟨?_, rfl⟩
  simp [Mediator.send, hreg, hres, hnok]

/-- Witness for the amended C1 at a concrete input: a handler registered for
`FooW` resolves to a nullish value, and `send` returns the
`INVALID_HANDLER_RESULT` failure. -/
theorem claim_C1_amended_witness :
    Mediator.send regC1w ⟨"FooW"⟩ =
        .errResult (MEDIATOR_ERRORS.INVALID_HANDLER_RESULT "FooW") ∧
    (MEDIATOR_ERRORS.INVALID_HANDLER_RESULT "FooW").message =
      "Handler returned invalid result for request type: " ++ "FooW" :=
  claim_C1_amended regC1w ⟨"FooW"⟩ hC1w .nullish rfl rfl rfl

/-- Claim C2: for every notification, `publish` resolves successfully (never
rejects) regardless of handler outcomes; every registered handler for the
notification's type-key is invoked exactly once (in registration order, each
wrapped in its own discarding catch), so one handler's failure never
prevents, and is never reported alongside, another handler's invocation, and
no failure propagates to the caller. -/
theorem claim_C2 (reg : Registry) (n : INotification) :
    (Mediator.publish reg n).outcome = .resolved ∧
    (Mediator.publish reg n).invoked =
      (reg.getNotificationHandlers (Mediator.getNotificationType n)).map
        (fun handler => handler n) := by
  constructor
  · show (if (reg.getNotificationHandlers (Mediator.getNotificationType n)).length > 0
        then promiseAll (((reg.getNotificationHandlers
          (Mediator.getNotificationType n)).map
            (fun handler => handler n)).map catchDiscard)
        else .resolved) = .resolved
    split
    · exact promiseAll_catchDiscard _
    · rfl
  · rfl

/-- Claim C4: for every request whose type-key has no registered handler,
`send` resolves to a failure Result carrying error code `HANDLER_NOT_FOUND`
with a message naming the type-key; it is returned as a normal value of
`send` (whose embedding is a total function with no throwing alternative),
not raised as an exception. -/
theorem claim_C4 (reg : Registry) (r : IRequest)
    (habs : reg.getHandler (Mediator.getRequestType r) = none) :
    Mediator.send reg r =
        .errResult (MEDIATOR_ERRORS.HANDLER_NOT_FOUND (Mediator.getRequestType r)) ∧
    (MEDIATOR_ERRORS.HANDLER_NOT_FOUND (Mediator.getRequestType r)).code =
      "HANDLER_NOT_FOUND" ∧
    (MEDIATOR_ERRORS.HANDLER_NOT_FOUND (Mediator.getRequestType r)).message =
      "Handler not found for request type: " ++ Mediator.getRequestType r := by
  refine ⟨?_, rfl, rfl⟩
  simp [Mediator.send, habs]

/-- Witness for C4 at a concrete input: the empty registry and a request of
type `Unknown`. -/
theorem claim_C4_witness :
    Mediator.send Registry.empty ⟨"Unknown"⟩ =
        .errResult (MEDIATOR_ERRORS.HANDLER_NOT_FOUND "Unknown") ∧
    (MEDIATOR_ERRORS.HANDLER_NOT_FOUND "Unknown").code = "HANDLER_NOT_FOUND" ∧
    (MEDIATOR_ERRORS.HANDLER_NOT_FOUND "Unknown").message =
      "Handler not found for request type: " ++ "Unknown" :=
  claim_C4 Registry.empty ⟨"Unknown"⟩ rfl

/-- Claim C5: for every request whose registered handler throws or rejects
(with any cause), `send` resolves to a failure Result with error code
`HANDLER_ERROR` naming the request's type-key; the exception does not
propagate (the embedding of `send` has no throwing alternative), and the
underlying cause does not appear in the caller-visible error descriptor —
the conclusion does not depend on `cause`. -/
theorem claim_C5 (reg : Registry) (r : IRequest) (handler : RequestHandler)
    (cause : String)
    (hreg : reg.getHandler (Mediator.getRequestType r) = some handler)
    (hthrow : handler r = .throws cause) :
    Mediator.send reg r =
        .errResult (MEDIATOR_ERRORS.HANDLER_ERROR (Mediator.getRequestType r)) ∧
    (MEDIATOR_ERRORS.HANDLER_ERROR (Mediator.getRequestType r)).code =
      "HANDLER_ERROR" ∧
    (MEDIATOR_ERRORS.HANDLER_ERROR (Mediator.getRequestType r)).message =
      "Handler execution failed for request type: " ++ Mediator.getRequestType r := by
  refine ⟨?_, rfl, rfl⟩
  simp [Mediator.send, hreg, hthrow]

/-- Witness for C5 at a concrete input: a handler for `Boom` that rejects
with cause `database exploded`; the cause does not reach the result. -/
theorem claim_C5_witness :
    Mediator.send regC5w ⟨"Boom"⟩ =
        .errResult (MEDIATOR_ERRORS.HANDLER_ERROR "Boom") ∧
    (MEDIATOR_ERRORS.HANDLER_ERROR "Boom").code = "HANDLER_ERROR" ∧
    (MEDIATOR_ERRORS.HANDLER_ERROR "Boom").message =
      "Handler execution failed for request type: " ++ "Boom" :=
  claim_C5 regC5w ⟨"Boom"⟩ hC5w "database exploded" rfl rfl

/-- Claim C6, counterexample: the claim states that whenever a handler
resolves to a valid (well-formed) Result `R`, `send` resolves to exactly
`R`.  The value `vC6cex` satisfies the well-formedness contract
(`isResult vC6cex = true`: three predicate functions, own `data` property,
`errors` array) but has no defined `ok` property, and `send` replaces it
with the `INVALID_HANDLER_RESULT` failure instead of passing it through. -/
theorem claim_C6_counterexample :
    isResult vC6cex = true ∧
    Mediator.send regC6cex ⟨"Bar"⟩ =
      .errResult (MEDIATOR_ERRORS.INVALID_HANDLER_RESULT "Bar") ∧
    Mediator.send regC6cex ⟨"Bar"⟩ ≠ .passThrough vC6cex := by
  decide

/-- Claim C6, amended: for every request whose registered handler resolves
to a value `R` with a defined `ok` property — in particular every genuine
ts-micro-result Result, success or failure alike — `send` resolves to
exactly `R`: identity pass-through with no wrapping, copying or
modification. -/
theorem claim_C6_amended (reg : Registry) (r : IRequest)
    (handler : RequestHandler) (v : JsValue)
    (hreg : reg.getHandler (Mediator.getRequestType r) = some handler)
    (hres : handler r = .resolves v)
    (hok : okIsDefined v = true) :
    Mediator.send reg r = .passThrough v := by
  simp [Mediator.send, hreg, hres, hok]

/-- Witness for the amended C6 at a concrete input: a failure-shaped Result
with `ok := false` registered for `Baz` is passed through unchanged. -/
theorem claim_C6_amended_witness :
    Mediator.send regC6w ⟨"Baz"⟩ = .passThrough vC6w :=
  claim_C6_amended regC6w ⟨"Baz"⟩ hC6w vC6w rfl rfl rfl

/-- Claim C3, failing trace: the claim states that after `resetRegistry()`,
the convenience registration API and the convenience send API observe the
same fresh singleton Registry+Dispatcher pair.  In the reachable state where
the middleware module's lazy cache was populated before the reset (one prior
`sendRequest` call), `resetRegistry()` clears the factory singleton and the
helpers cache but leaves the middleware cache pointing at the stale pair:
registering a handler for `K` then goes into the fresh registry (index 1,
second conjunct — and dispatching against that fresh registry would return
the handler's Result, third conjunct), while `sendRequest` still dispatches
through the stale mediator (cache `some 0`, fourth conjunct) against the
cleared pre-reset registry, so it returns the `HANDLER_NOT_FOUND` failure
instead of invoking the freshly registered handler (first conjunct). -/
theorem claim_C3_staleCacheTrace :
    (Middleware.sendRequest wC3registered ⟨"K"⟩).2 =
        .errResult (MEDIATOR_ERRORS.HANDLER_NOT_FOUND "K") ∧
    (wC3registered.registries.getD 1 Registry.empty).getHandler "K" = some hC3K ∧
    Mediator.send (wC3registered.registries.getD 1 Registry.empty) ⟨"K"⟩ =
        .passThrough vC3K ∧
    wC3registered.middlewareMediator = some 0 ∧
    wC3registered.factoryRegistry = some 1 :=
  ⟨by decide, rfl, rfl, rfl, rfl⟩

/-- Claim C7: `sendBatch` resolves to the list of per-request `send` Results
in exactly the input order — same length, and the i-th element of the output
is `send` of the i-th request.  In the embedding `Promise.all` over
`requests.map(send)` keeps the settled value of the i-th promise at index i,
independent of relative completion timing. -/
theorem claim_C7 (reg : Registry) (requests : List IRequest) (i : Nat) :
    (Mediator.sendBatch reg requests).length = requests.length ∧
    (Mediator.sendBatch reg requests)[i]? =
      (requests[i]?).map (Mediator.send reg) := by
  constructor
  · simp [Mediator.sendBatch]
  · simp [Mediator.sendBatch]

/-- Claim C8: the dispatcher's three standard error descriptors match the
spec's table — `HANDLER_NOT_FOUND` with status 404, `HANDLER_ERROR` with
status 500, `INVALID_HANDLER_RESULT` with status 500, each with its message
template instantiated with the resolved type-key. -/
theorem claim_C8 (t : String) :
    MEDIATOR_ERRORS.HANDLER_NOT_FOUND t =
      ErrorDetail.mk "HANDLER_NOT_FOUND"
        ("Handler not found for request type: " ++ t) (some 404) ∧
    MEDIATOR_ERRORS.HANDLER_ERROR t =
      ErrorDetail.mk "HANDLER_ERROR"
        ("Handler execution failed for request type: " ++ t) (some 500) ∧
    MEDIATOR_ERRORS.INVALID_HANDLER_RESULT t =
      ErrorDetail.mk "INVALID_HANDLER_RESULT"
        ("Handler returned invalid result for request type: " ++ t) (some 500) :=
  ⟨rfl, rfl, rfl⟩

/-- Claim C9: for every Registry state, `reset()` empties all four mappings:
`getStats()` immediately afterwards returns all-zero counts, a subsequent
`send` for any request behaves exactly as on a never-used registry, and in
particular returns the `HANDLER_NOT_FOUND` failure. -/
theorem claim_C9 (reg : Registry) (r : IRequest) :
    (reg.reset).getStats = RegistryStats.mk 0 0 0 0 ∧
    Mediator.send reg.reset r = Mediator.send Registry.empty r ∧
    Mediator.send reg.reset r =
      .errResult (MEDIATOR_ERRORS.HANDLER_NOT_FOUND (Mediator.getRequestType r)) :=
  ⟨rfl, rfl, rfl⟩

/-- Claim C10: under the Registry's representation invariant (distinct keys,
as for a JS `Map`, and non-empty handler lists), `getStats().notificationHandlers`
counts the distinct notification type-keys that have at least one registered
handler — there is a duplicate-free list of exactly the type-keys with a
non-empty handler list whose length is the reported count — and registering
a second handler for an already-registered type-key appends to that key's
list (growing the total number of handler functions) while leaving the
`notificationHandlers` count unchanged. -/
theorem claim_C10 (reg : Registry) (hwf : reg.notifKeysOk) (k : String)
    (hs : List NotificationHandler) (handler : NotificationHandler)
    (hk : mapGet reg.notificationHandlers k = some hs) :
    ((reg.registerNotificationHandler k handler).getStats).notificationHandlers =
        (reg.getStats).notificationHandlers ∧
    (reg.registerNotificationHandler k handler).getNotificationHandlers k =
        hs ++ [handler] ∧
    ∃ keys : List String, keys.Nodup ∧
      (∀ t, t ∈ keys ↔ reg.getNotificationHandlers t ≠ []) ∧
      (reg.getStats).notificationHandlers = keys.length := by
  have hreg : (reg.registerNotificationHandler k handler).notificationHandlers =
      mapSet reg.notificationHandlers k (hs ++ [handler]) := by
    simp [Registry.registerNotificationHandler, hk]
  refine ⟨?_, ?_, ?_⟩
  · show (reg.registerNotificationHandler k handler).notificationHandlers.length =
      reg.notificationHandlers.length
    rw [hreg]
    exact length_mapSet_of_get _ _ _ _ hk
  · show (mapGet (reg.registerNotificationHandler k handler).notificationHandlers k).getD [] =
      hs ++ [handler]
    rw [hreg]
    simp [mapGet_mapSet_self]
  · refine ⟨reg.notificationHandlers.map Prod.fst, hwf.1, ?_, ?_⟩
    · intro t
      constructor
      · intro ht
        obtain ⟨v, hv⟩ := mapGet_eq_some_of_mem_keys _ _ ht
        have hne := hwf.2 _ (mapGet_mem _ _ _ hv)
        simp [Registry.getNotificationHandlers, hv]
        exact hne
      · intro ht
        by_contra hnot
        have hnone := mapGet_eq_none_of_not_mem_keys _ _ hnot
        simp [Registry.getNotificationHandlers, hnone] at ht
    · simp [Registry.getStats]

/-- Witness for C10 at a concrete input: with `nhA` already registered for
`Evt`, registering `nhB` for `Evt` leaves the count unchanged while the list
for `Evt` becomes both handlers in order. -/
theorem claim_C10_witness :
    ((regC10w.registerNotificationHandler "Evt" nhB).getStats).notificationHandlers =
        (regC10w.getStats).notificationHandlers ∧
    (regC10w.registerNotificationHandler "Evt" nhB).getNotificationHandlers "Evt" =
        [nhA] ++ [nhB] ∧
    ∃ keys : List String, keys.Nodup ∧
      (∀ t, t ∈ keys ↔ regC10w.getNotificationHandlers t ≠ []) ∧
      (regC10w.getStats).notificationHandlers = keys.length := by
  refine claim_C10 regC10w ⟨?_, ?_⟩ "Evt" [nhA] nhB rfl
  · show (["Evt"] : List String).Nodup
    simp
  · intro p hp
    have hp' : p = ("Evt", [nhA]) := List.mem_singleton.mp hp
    subst hp'
    simp
